import Mathlib

/-!
Verification of the synchronization/dispatch core of `starling-server`.

This file is a shallow embedding, in Lean 4, of the parts of the repository
that the verified properties talk about:

* `starling_server/db/edgedb/database.py` — the upsert queries
  `insert_or_update_account` / `insert_or_update_transaction` (EdgeQL
  `insert … unless conflict on .uuid else (update …)`), modelled as pure
  functions on an explicit `Store` value.  The EdgeDB schema stores the
  transaction amount with a `<float32>` cast, which is modelled exactly by
  `roundF32` (round to nearest, ties to even, 24-bit significand).
* `starling_server/server/route_dispatcher.py` — the window computation and
  the per-account / all-accounts sync operations of `RouteDispatcher`.
* `starling_server/providers/starling/api.py` — `StarlingProvider.__init__`,
  `StarlingProvider.get_transactions_between` and
  `CategoryHelper._category_for_account_id`.
* `src/server/routes/transaction.py` — the `GET /transactions/` route's
  concatenate-and-sort behaviour.

Python exceptions are modelled with `Except PyErr`; Python `None` with
`Option`; `datetime` values with `ℤ` (seconds); UUIDs with `ℕ`;
decimal amounts with `ℚ`.
-/

/-- UUIDs are modelled as natural numbers. -/
abbrev UUID := Nat

/-- The Python exceptions that the embedded code can raise. -/
inductive PyErr where
  /-- `next()` on an exhausted iterator (`_get_api_for_id`). -/
  | stopIteration
  /-- e.g. `list.extend(None)` or `uuid.UUID(None)`. -/
  | typeError
  /-- e.g. `None.strftime(...)`. -/
  | attributeError
  /-- `ValueError` raised by `StarlingProvider.__init__`. -/
  | valueError
  /-- `RuntimeError` raised by `StarlingProvider.__init__`. -/
  | runtimeError
  /-- a provider/network failure during a fetch (spec: `ProviderUnavailable`). -/
  | providerUnavailable
deriving DecidableEq, Repr

/-- `TransactionSchema` (server/schemas/transaction.py): the canonical shape of a
fetched transaction handed to `Database.upsert_transaction`. -/
structure TransactionSchema where
  uuid : UUID
  account_uuid : UUID
  time : Int
  counterparty_name : String
  amount : Rat
  reference : String
deriving DecidableEq, Repr

/-- `AccountSchema` (server/schemas/account.py): the canonical shape of an account. -/
structure AccountSchema where
  uuid : UUID
  bank_name : String
  account_name : String
  currency : String
  created_at : Int
deriving DecidableEq, Repr

/-- A persisted `Account` row of the EdgeDB schema. -/
structure AccountRecord where
  uuid : UUID
  bank_name : String
  name : String
  currency : String
  created_at : Int
deriving DecidableEq, Repr

/-- A persisted `Transaction` row of the EdgeDB schema.  `amount` holds the
value of the `<float32>` cast applied by `insert_or_update_transaction`. -/
structure TransactionRecord where
  uuid : UUID
  account_uuid : UUID
  time : Int
  counterparty_name : String
  amount : Rat
  reference : String
deriving DecidableEq, Repr

/-- The persistence store: `Bank`, `Account` and `Transaction` tables. -/
structure Store where
  banks : List String
  accounts : List AccountRecord
  transactions : List TransactionRecord
deriving DecidableEq, Repr

/-! ### The `<float32>` cast

`insert_or_update_transaction` stores the amount as `<float32>$amount`.
The cast is IEEE-754 binary32 rounding (round to nearest, ties to even),
which is modelled exactly on rationals in the normal range: a finite
binary32 value is `± m * 2 ^ e` with `m < 2 ^ 24`. -/

/-- Fuel-bounded floor-log₂ of `n / d` for `d ≤ n`: the number of times `d`
can be doubled while `2 * d ≤ n`. -/
def log2UpAux : Nat → Nat → Nat → Nat
  | 0, _, _ => 0
  | fuel+1, n, d => if n < 2 * d then 0 else log2UpAux fuel n (2 * d) + 1

/-- Fuel-bounded negative floor-log₂ of `n / d` for `n < d`: the number of
times `n` must be doubled to reach `d`. -/
def log2DownAux : Nat → Nat → Nat → Nat
  | 0, _, _ => 0
  | fuel+1, n, d => if d ≤ n then 0 else log2DownAux fuel (2 * n) d + 1

/-- Round `p / q` (`q ≠ 0`) to the nearest integer, ties to even. -/
def rhe (p q : Nat) : Nat :=
  let f := p / q
  let r := p % q
  if 2 * r < q then f
  else if q < 2 * r then f + 1
  else if f % 2 = 0 then f else f + 1

/-- Fuel for the binary-exponent search; ample for every magnitude a
binary32 value (|exponent| ≤ 150) can take. -/
def floatFuel : Nat := 1400

/-- The value stored for a rational amount by the `<float32>` cast:
round to nearest binary32 (24-bit significand), ties to even.  Faithful for
amounts in the binary32 normal range, which covers all currency amounts of
interest. -/
def roundF32 (x : Rat) : Rat :=
  if x = 0 then 0
  else
    let n : Nat := x.num.natAbs
    let d : Nat := x.den
    let eTop : Int :=
      if d ≤ n then (log2UpAux floatFuel n d : Int)
      else -(log2DownAux floatFuel n d : Int)
    let e : Int := eTop - 23
    let m : Nat := if e ≤ 0 then rhe (n * 2 ^ (-e).toNat) d else rhe n (d * 2 ^ e.toNat)
    let mag : Rat := (m : Rat) * 2 ^ (e : Int)
    if x < 0 then -mag else mag

/-! ### `db/edgedb/database.py` -/

/-- The `update Account set { name, currency, created_at }` conflict branch of
`insert_or_update_account`, applied to the row it hits: the `bank` link and
the `uuid` are not in the update set. -/
def updateAccountRecord (account : AccountSchema) (r : AccountRecord) : AccountRecord :=
  if r.uuid == account.uuid then
    { r with
      name := account.account_name
      currency := account.currency
      created_at := account.created_at }
  else r

/-- The `insert Bank { name } unless conflict` step of
`insert_or_update_account`: a no-op when the bank already exists. -/
def upsertBank (banks : List String) (name : String) : List String :=
  if banks.contains name then banks else banks ++ [name]

/-- `Database.insert_or_update_account` (database.py lines 33-71).
First `insert Bank { name } unless conflict`, then
`insert Account { bank, uuid, name, currency, created_at } unless conflict
on .uuid else (update Account set { name, currency, created_at })`. -/
def insert_or_update_account (db : Store) (bank_name : String) (account : AccountSchema) :
    Store :=
  if db.accounts.any (fun r => r.uuid == account.uuid) then
    { db with
      banks := upsertBank db.banks bank_name
      accounts := db.accounts.map (updateAccountRecord account) }
  else
    { db with
      banks := upsertBank db.banks bank_name
      accounts := db.accounts ++
        [⟨account.uuid, bank_name, account.account_name, account.currency,
          account.created_at⟩] }

/-- The `update Transaction set { time, counterparty_name, amount, reference }`
conflict branch of `insert_or_update_transaction`, applied to the row it
hits: the `account` link and the `uuid` are not in the update set, and the
amount goes through the `<float32>` cast. -/
def updateTransactionRecord (t : TransactionSchema) (r : TransactionRecord) :
    TransactionRecord :=
  if r.uuid == t.uuid then
    { r with
      time := t.time
      counterparty_name := t.counterparty_name
      amount := roundF32 t.amount
      reference := t.reference }
  else r

/-- `Database.insert_or_update_transaction` (database.py lines 101-132).
`insert Transaction { account, uuid, time, counterparty_name,
amount := <float32>$amount, reference } unless conflict on .uuid else
(update Transaction set { time, counterparty_name, amount, reference })`. -/
def insert_or_update_transaction (db : Store) (t : TransactionSchema) : Store :=
  if db.transactions.any (fun r => r.uuid == t.uuid) then
    { db with
      transactions := db.transactions.map (updateTransactionRecord t) }
  else
    { db with
      transactions := db.transactions ++
        [⟨t.uuid, t.account_uuid, t.time, t.counterparty_name, roundF32 t.amount,
          t.reference⟩] }

/-- Select the `Transaction` row with the given UUID, if any. -/
def select_transaction (db : Store) (u : UUID) : Option TransactionRecord :=
  db.transactions.find? (fun r => r.uuid == u)

/-- The UUID column of the `Transaction` table. -/
def txUuids (db : Store) : List UUID := db.transactions.map TransactionRecord.uuid

/-- The UUID column of the `Account` table. -/
def accountUuids (db : Store) : List UUID := db.accounts.map AccountRecord.uuid

/-! ### `providers/starling/api.py` -/

/-- `CategoryHelper._category_for_account_id` (api.py lines 229-233).
The TOML config file is modelled as an association list from account UUID to
category UUID.  With `account_uuid = None` the Python function falls through
and returns `None`; otherwise it evaluates
`uuid.UUID(config_file.get(str(account_uuid)))`, which raises `TypeError`
when the lookup misses (`uuid.UUID(None)`). -/
def category_for_account_id (config : List (UUID × UUID)) (account_uuid : Option UUID) :
    Except PyErr (Option UUID) :=
  match account_uuid with
  | none => .ok none
  | some u =>
    match config.lookup u with
    | some c => .ok (some c)
    | none => .error .typeError

/-- A constructed `StarlingProvider` adapter. -/
structure StarlingProvider where
  auth_token : String
  bank_name : Option String
  account_uuid : Option UUID
  default_category : Option UUID
deriving DecidableEq, Repr

/-- `StarlingProvider.__init__` (api.py lines 41-73).  With
`category_check = True` and an account UUID, the default category is
resolved through `CategoryHelper._category_for_account_id`; a `None` result
would raise `RuntimeError`, and the exception raised by the helper itself
propagates. -/
def StarlingProvider_init (config : List (UUID × UUID)) (auth_token : String)
    (bank_name : Option String) (account_uuid : Option UUID) (category_check : Bool) :
    Except PyErr StarlingProvider :=
  if account_uuid.isSome && bank_name.isNone then .error .valueError
  else if category_check && account_uuid.isSome then
    match category_for_account_id config account_uuid with
    | .error e => .error e
    | .ok none => .error .runtimeError
    | .ok (some c) => .ok ⟨auth_token, bank_name, account_uuid, some c⟩
  else .ok ⟨auth_token, bank_name, account_uuid, none⟩

/-- A `Bank` row as queried by `RouteDispatcher._build_api_list`:
name, auth token hash, and the UUIDs of its accounts. -/
structure BankRecord where
  name : String
  auth_token_hash : String
  account_uuids : List UUID
deriving DecidableEq, Repr

/-- The inner loop of `RouteDispatcher._build_api_list`: construct one
adapter per account of one bank.  `get_class_for_bank_name`
(server/config_helper.py, not under src/) is modelled from the spec: every
bank name resolves to the registered Starling adapter class. -/
def build_apis_for_bank (config : List (UUID × UUID)) (bank : BankRecord) :
    List UUID → Except PyErr (List StarlingProvider)
  | [] => .ok []
  | u :: rest =>
    match StarlingProvider_init config bank.auth_token_hash (some bank.name) (some u)
        true with
    | .error e => .error e
    | .ok api =>
      match build_apis_for_bank config bank rest with
      | .error e => .error e
      | .ok apis => .ok (api :: apis)

/-- `RouteDispatcher._build_api_list` (route_dispatcher.py lines 96-122):
one adapter per (bank, account) pair; any exception raised by an adapter
constructor propagates and aborts the whole build. -/
def build_api_list (config : List (UUID × UUID)) :
    List BankRecord → Except PyErr (List StarlingProvider)
  | [] => .ok []
  | bank :: rest =>
    match build_apis_for_bank config bank bank.account_uuids with
    | .error e => .error e
    | .ok apis =>
      match build_api_list config rest with
      | .error e => .error e
      | .ok apis' => .ok (apis ++ apis')

/-! ### `server/route_dispatcher.py` -/

/-- Modelled from the spec: the configured sync window length in days.
`starling_server/config.py`, which defines `default_interval_days`, is not
under src/; the spec fixes it to 7 ("Default window: … `[now - 7 days,
now)`"). -/
def default_interval_days : Int := 7

/-- One day in seconds (`timedelta(days=1)`). -/
def daySeconds : Int := 86400

/-- A bound provider adapter as used by the dispatcher: the account UUID it
is bound to, and its raw provider fetch (the network call behind
`StarlingProvider.get_transactions_between`). -/
structure Api where
  account_uuid : UUID
  raw_fetch : Int → Int → Except PyErr (List TransactionSchema)

/-- `StarlingProvider.get_transactions_between` (api.py lines 94-104) as
called by the dispatcher: it formats both dates with `strftime`, so a `None`
date raises `AttributeError` before any network call. -/
def provider_get_transactions_between (api : Api) (start_date end_date : Option Int) :
    Except PyErr (List TransactionSchema) :=
  match start_date, end_date with
  | some s, some e => api.raw_fetch s e
  | _, _ => .error .attributeError

/-- The window logic of `RouteDispatcher.get_transactions_for_account_id_between`
(route_dispatcher.py lines 60-62):

`if start_date or end_date is None:` — i.e. if `start_date` is truthy
(a datetime is always truthy) or `end_date` is `None` — then
`end_date = datetime.now()` and
`start_date = end_date - timedelta(days=default_interval_days)`;
otherwise both dates are left as supplied. -/
def computeWindow (now : Int) (start_date end_date : Option Int) :
    Option Int × Option Int :=
  if start_date.isSome || end_date.isNone then
    (some (now - default_interval_days * daySeconds), some now)
  else
    (start_date, end_date)

/-- `RouteDispatcher._get_api_for_id` (route_dispatcher.py lines 124-126):
`next(api for api in self.apis if api.account_uuid == account_uuid)` —
`next` without a default raises `StopIteration` when nothing matches, so the
`.ok none` case never occurs. -/
def get_api_for_id (apis : List Api) (account_uuid : UUID) :
    Except PyErr (Option Api) :=
  match apis.find? (fun api => api.account_uuid == account_uuid) with
  | some api => .ok (some api)
  | none => .error .stopIteration

/-- `RouteDispatcher.get_transactions_for_account_id_between`
(route_dispatcher.py lines 50-77): compute the window, resolve the adapter
(`return None` if the resolver yields `None`), fetch, upsert every fetched
transaction, and return the fetched list together with the updated store. -/
def get_transactions_for_account_id_between (db : Store) (apis : List Api) (now : Int)
    (account_id : UUID) (start_date end_date : Option Int) :
    Except PyErr (Option (List TransactionSchema) × Store) :=
  let w := computeWindow now start_date end_date
  match get_api_for_id apis account_id with
  | .error e => .error e
  | .ok none => .ok (none, db)
  | .ok (some api) =>
    match provider_get_transactions_between api w.1 w.2 with
    | .error e => .error e
    | .ok transactions =>
      let db2 := transactions.foldl insert_or_update_transaction db
      .ok (some transactions, db2)

/-- Sort relation used by `get_transactions_between`:
`transactions.sort(key=lambda t: t.time, reverse=True)` — descending time. -/
def tdesc (a b : TransactionSchema) : Prop := b.time ≤ a.time

instance : DecidableRel tdesc := fun a b => inferInstanceAs (Decidable (b.time ≤ a.time))

instance : IsTotal TransactionSchema tdesc := ⟨fun a b => le_total b.time a.time⟩

instance : IsTrans TransactionSchema tdesc :=
  ⟨fun _ _ _ h1 h2 => le_trans h2 h1⟩

/-- Sort relation used by the `GET /transactions/` route:
`transactions.sort(key=lambda t: t.time)` — ascending time. -/
def tasc (a b : TransactionSchema) : Prop := a.time ≤ b.time

instance : DecidableRel tasc := fun a b => inferInstanceAs (Decidable (a.time ≤ b.time))

instance : IsTotal TransactionSchema tasc := ⟨fun a b => le_total a.time b.time⟩

instance : IsTrans TransactionSchema tasc :=
  ⟨fun _ _ _ h1 h2 => le_trans h1 h2⟩

/-- The `for account in accounts:` loop of
`RouteDispatcher.get_transactions_between` (route_dispatcher.py lines 85-89):
sync each account in turn, `transactions.extend(result)` — which raises
`TypeError` when `result` is `None` — and thread the store through. -/
def syncAllLoop (apis : List Api) (now : Int) (start_date end_date : Option Int) :
    List AccountRecord → Store → List TransactionSchema →
    Except PyErr (List TransactionSchema × Store)
  | [], db, acc => .ok (acc, db)
  | account :: rest, db, acc =>
    match get_transactions_for_account_id_between db apis now account.uuid start_date
        end_date with
    | .error e => .error e
    | .ok (result, db2) =>
      match result with
      | none => .error .typeError
      | some ts => syncAllLoop apis now start_date end_date rest db2 (acc ++ ts)

/-- `RouteDispatcher.get_transactions_between` (route_dispatcher.py lines
79-92): sync every account known to the store, concatenating results, then
sort by timestamp descending. -/
def get_transactions_between (db : Store) (apis : List Api) (now : Int)
    (start_date end_date : Option Int) :
    Except PyErr (List TransactionSchema × Store) :=
  match syncAllLoop apis now start_date end_date db.accounts db [] with
  | .error e => .error e
  | .ok (ts, db2) => .ok (List.insertionSort tdesc ts, db2)

/-! ### `src/server/routes/transaction.py` -/

/-- The `GET /transactions/` route handler `get_transactions`
(transaction.py lines 20-33): concatenate the per-account transaction lists
(the `retrieve_transactions_for_account` results, taken here as input) and
sort ascending by time. -/
def route_get_transactions (accountLists : List (List TransactionSchema)) :
    List TransactionSchema :=
  List.insertionSort tasc (accountLists.foldl (fun acc l => acc ++ l) [])

/-! ### Concrete fixtures used by the closed theorems -/

/-- An empty store. -/
def store0 : Store := ⟨[], [], []⟩

/-- A transaction returned by account 1's provider in the batch fixture. -/
def tx1 : TransactionSchema := ⟨101, 1, 10, "shop a", 5, "r1"⟩

/-- A transaction returned by account 3's provider in the batch fixture. -/
def tx3 : TransactionSchema := ⟨103, 3, 30, "shop c", 5, "r3"⟩

/-- An `Account` row with the given UUID. -/
def acct (u : UUID) : AccountRecord := ⟨u, "starling", "acc", "GBP", 0⟩

/-- A store holding three accounts and no transactions. -/
def store3 : Store := ⟨["starling"], [acct 1, acct 2, acct 3], []⟩

/-- Three bound adapters: accounts 1 and 3 fetch fine, account 2's provider
call raises `ProviderUnavailable`. -/
def apis3 : List Api :=
  [⟨1, fun _ _ => .ok [tx1]⟩,
   ⟨2, fun _ _ => .error .providerUnavailable⟩,
   ⟨3, fun _ _ => .ok [tx3]⟩]

/-! ### The dispatcher window -/

/-- Claim C6: with neither `start_date` nor `end_date` supplied, the
per-account sync computes the fetch window as `[now - 7 days, now)`, using
the configured `default_interval_days`. -/
theorem C6_default_window (now : Int) :
    computeWindow now none none
      = (some (now - default_interval_days * daySeconds), some now)
    ∧ default_interval_days = 7 :=
  ⟨rfl, rfl⟩

/-- Claim C10: when both `start_date` and `end_date` are supplied, the guard
`if start_date or end_date is None` is true (a datetime is truthy), so the
supplied bounds are discarded and the fetch window is silently replaced by
the default window `[now - 7 days, now)`; the sync behaves exactly as if no
bounds had been passed. -/
theorem C10_supplied_bounds_discarded (now s e : Int) (db : Store) (apis : List Api)
    (account_id : UUID) :
    computeWindow now (some s) (some e)
      = (some (now - default_interval_days * daySeconds), some now)
    ∧ get_transactions_for_account_id_between db apis now account_id (some s) (some e)
      = get_transactions_for_account_id_between db apis now account_id none none :=
  ⟨rfl, rfl⟩

/-- Claim C1 (falsified): the spec's per-side partial-window fallback does
not hold.  With only `start` given (start `12345`, now `1000000`), the code
discards the given start and uses the full default window instead of keeping
`start` and setting `end = now`; with only `end` given, the code leaves
`start = None` instead of filling it with `end - 7 days`, and the sync then
raises `AttributeError` inside the provider call (`None.strftime`). -/
theorem C1_partial_window_fallback_violated :
    (computeWindow 1000000 (some 12345) none = (some 395200, some 1000000)
      ∧ computeWindow 1000000 (some 12345) none ≠ (some 12345, some 1000000))
    ∧ (computeWindow 1000000 none (some 500000) = (none, some 500000)
      ∧ computeWindow 1000000 none (some 500000)
          ≠ (some (500000 - default_interval_days * daySeconds), some 500000))
    ∧ get_transactions_for_account_id_between store0 [⟨7, fun _ _ => .ok []⟩] 1000000 7
        none (some 500000)
      = .error .attributeError :=
  ⟨⟨by decide, by decide⟩, ⟨rfl, by decide⟩, rfl⟩

/-! ### Adapter resolution -/

/-- Claim C2 (falsified): for an account UUID with no bound adapter,
`_get_api_for_id` does not return `None` — `next` without a default raises
`StopIteration`, which propagates out of the per-account sync (and, the
method being a coroutine, surfaces as a `RuntimeError` to the caller).  The
`if api is None: return` guard is unreachable. -/
theorem C2_unbound_account_raises :
    get_api_for_id [] 42 = .error .stopIteration
    ∧ get_api_for_id [⟨7, fun _ _ => .ok []⟩] 42 = .error .stopIteration
    ∧ get_transactions_for_account_id_between store0 [⟨7, fun _ _ => .ok []⟩] 1000000 42
        none none
      = .error .stopIteration :=
  ⟨rfl, rfl, rfl⟩

/-! ### Batch sync -/

/-- Claim C3 (falsified): with three bound accounts where account 2's
provider call raises `ProviderUnavailable`, the all-accounts sync does not
return the transactions of accounts 1 and 3 — there is no per-account error
handling, so the exception propagates and the whole batch fails. -/
theorem C3_batch_failure_not_isolated :
    get_transactions_between store3 apis3 1000000 none none
      = .error .providerUnavailable :=
  rfl

/-! ### Category helper -/

/-- Claim C8 (falsified): `_category_for_account_id` returns the persisted
category UUID when a mapping exists (and `None` when called with
`account_uuid = None`), but when no mapping exists for the account it raises
`TypeError` (`uuid.UUID(None)`) instead of returning `None`. -/
theorem C8_category_resolve_raises_on_missing :
    category_for_account_id [(1, 77)] (some 1) = .ok (some 77)
    ∧ category_for_account_id [(1, 77)] none = .ok none
    ∧ category_for_account_id [(1, 77)] (some 2) = .error .typeError :=
  ⟨rfl, rfl, rfl⟩

/-! ### Adapter-list build -/

/-- Claim C9 (falsified): a missing default-category configuration for one
account aborts the whole adapter-list build.  With accounts 1 (configured)
and 2 (not configured), the build raises — in either bank order — instead of
returning the adapter for account 1; account 1 alone builds fine. -/
theorem C9_missing_category_aborts_whole_build :
    build_api_list [(1, 77)] [⟨"starling", "tok1", [1]⟩, ⟨"starling", "tok2", [2]⟩]
      = .error .typeError
    ∧ build_api_list [(1, 77)] [⟨"starling", "tok2", [2]⟩, ⟨"starling", "tok1", [1]⟩]
      = .error .typeError
    ∧ build_api_list [(1, 77)] [⟨"starling", "tok1", [1]⟩]
      = .ok [⟨"tok1", some "starling", some 1, some 77⟩] :=
  ⟨rfl, rfl, rfl⟩

/-! ### Sort order -/

/-- Claim C5: the all-accounts sync returns its result sorted by timestamp
descending, and the `GET /transactions/` route returns its result sorted by
timestamp ascending. -/
theorem C5_sort_order :
    (∀ (db : Store) (apis : List Api) (now : Int) (s e : Option Int)
        (ts : List TransactionSchema) (db2 : Store),
        get_transactions_between db apis now s e = .ok (ts, db2) →
        List.Sorted tdesc ts)
    ∧ ∀ accountLists : List (List TransactionSchema),
        List.Sorted tasc (route_get_transactions accountLists) := by
  constructor
  · intro db apis now s e ts db2 h
    unfold get_transactions_between at h
    cases hl : syncAllLoop apis now s e db.accounts db [] with
    | error err => rw [hl] at h; exact absurd h (by simp)
    | ok p =>
      rw [hl] at h
      obtain ⟨ts0, dbx⟩ := p
      simp only [Except.ok.injEq, Prod.mk.injEq] at h
      rw [← h.1]
      exact List.sorted_insertionSort tdesc ts0
  · intro accountLists
    exact List.sorted_insertionSort tasc _

/-- A store holding a single account with UUID 5. -/
def storeW : Store := ⟨["starling"], [⟨5, "starling", "acc", "GBP", 0⟩], []⟩

/-- An adapter for account 5 whose provider returns no transactions. -/
def apiW : Api := ⟨5, fun _ _ => .ok []⟩

/-- A transaction at time 10. -/
def txa : TransactionSchema := ⟨1, 5, 10, "shop a", 5, "ra"⟩

/-- A transaction at time 20. -/
def txb : TransactionSchema := ⟨2, 5, 20, "shop b", 5, "rb"⟩

/-- Witness for claim C5 at a concrete input: the all-accounts sync on
`storeW` succeeds, its result is sorted descending, and the route's result
on two concrete transactions is sorted ascending. -/
theorem C5_sort_order_witness :
    get_transactions_between storeW [apiW] 1000000 none none = .ok ([], storeW)
    ∧ List.Sorted tdesc ([] : List TransactionSchema)
    ∧ List.Sorted tasc (route_get_transactions [[txb, txa]]) :=
  ⟨rfl,
   C5_sort_order.1 storeW [apiW] 1000000 none none [] storeW rfl,
   C5_sort_order.2 [[txb, txa]]⟩

/-! ### Upsert lemmas (claims C4 and C7) -/

/-- A UUID present in the transaction column makes the conflict test positive. -/
lemma any_tx_uuid {l : List TransactionRecord} {u : UUID}
    (h : u ∈ l.map TransactionRecord.uuid) :
    l.any (fun r => r.uuid == u) = true := by
  obtain ⟨r, hr, hu⟩ := List.mem_map.1 h
  exact List.any_eq_true.2 ⟨r, hr, by simp [hu]⟩

/-- A UUID present in the account column makes the conflict test positive. -/
lemma any_account_uuid {l : List AccountRecord} {u : UUID}
    (h : u ∈ l.map AccountRecord.uuid) :
    l.any (fun r => r.uuid == u) = true := by
  obtain ⟨r, hr, hu⟩ := List.mem_map.1 h
  exact List.any_eq_true.2 ⟨r, hr, by simp [hu]⟩

/-- The conflict-update branch never changes a row's UUID. -/
lemma updateTransactionRecord_uuid (t : TransactionSchema) (r : TransactionRecord) :
    (updateTransactionRecord t r).uuid = r.uuid := by
  simp only [updateTransactionRecord]
  split <;> rfl

/-- The conflict-update branch never changes a row's UUID. -/
lemma updateAccountRecord_uuid (a : AccountSchema) (r : AccountRecord) :
    (updateAccountRecord a r).uuid = r.uuid := by
  simp only [updateAccountRecord]
  split <;> rfl

/-- The conflict-update branch leaves the UUID column untouched. -/
lemma txUuids_map_update (l : List TransactionRecord) (t : TransactionSchema) :
    (l.map (updateTransactionRecord t)).map TransactionRecord.uuid
      = l.map TransactionRecord.uuid := by
  rw [List.map_map]
  exact List.map_congr_left fun r _ => updateTransactionRecord_uuid t r

/-- The conflict-update branch leaves the UUID column untouched. -/
lemma accountUuids_map_update (l : List AccountRecord) (a : AccountSchema) :
    (l.map (updateAccountRecord a)).map AccountRecord.uuid
      = l.map AccountRecord.uuid := by
  rw [List.map_map]
  exact List.map_congr_left fun r _ => updateAccountRecord_uuid a r

/-- On a conflict, the row that was hit carries the upserted field values. -/
lemma exists_updated_tx (l : List TransactionRecord) (t : TransactionSchema)
    (hmem : t.uuid ∈ l.map TransactionRecord.uuid) :
    ∃ r ∈ l.map (updateTransactionRecord t),
      r.uuid = t.uuid ∧ r.time = t.time ∧ r.counterparty_name = t.counterparty_name
      ∧ r.amount = roundF32 t.amount ∧ r.reference = t.reference := by
  obtain ⟨r0, hr0, hu⟩ := List.mem_map.1 hmem
  refine ⟨updateTransactionRecord t r0, List.mem_map_of_mem _ hr0, ?_⟩
  simp [updateTransactionRecord, hu]

/-- On a conflict, the row that was hit carries the upserted field values. -/
lemma exists_updated_account (l : List AccountRecord) (a : AccountSchema)
    (hmem : a.uuid ∈ l.map AccountRecord.uuid) :
    ∃ r ∈ l.map (updateAccountRecord a),
      r.uuid = a.uuid ∧ r.name = a.account_name ∧ r.currency = a.currency
      ∧ r.created_at = a.created_at := by
  obtain ⟨r0, hr0, hu⟩ := List.mem_map.1 hmem
  refine ⟨updateAccountRecord a r0, List.mem_map_of_mem _ hr0, ?_⟩
  simp [updateAccountRecord, hu]

/-- Claim C4: an upsert whose UUID already exists in the store updates that
record's fields in place, leaves the record count unchanged, and preserves
UUID-uniqueness — no duplicate record with the same UUID is created.  Both
the Transaction and the Account upsert are covered. -/
theorem C4_upsert_keyed_on_uuid (db : Store) (t : TransactionSchema) (bn : String)
    (a : AccountSchema)
    (hmemT : t.uuid ∈ txUuids db) (hmemA : a.uuid ∈ accountUuids db)
    (hnodupT : (txUuids db).Nodup) (hnodupA : (accountUuids db).Nodup) :
    ((insert_or_update_transaction db t).transactions.length = db.transactions.length
      ∧ (∃ r ∈ (insert_or_update_transaction db t).transactions,
          r.uuid = t.uuid ∧ r.time = t.time ∧ r.counterparty_name = t.counterparty_name
          ∧ r.amount = roundF32 t.amount ∧ r.reference = t.reference)
      ∧ (txUuids (insert_or_update_transaction db t)).Nodup)
    ∧ ((insert_or_update_account db bn a).accounts.length = db.accounts.length
      ∧ (∃ r ∈ (insert_or_update_account db bn a).accounts,
          r.uuid = a.uuid ∧ r.name = a.account_name ∧ r.currency = a.currency
          ∧ r.created_at = a.created_at)
      ∧ (accountUuids (insert_or_update_account db bn a)).Nodup) := by
  have hanyT : db.transactions.any (fun r => r.uuid == t.uuid) = true :=
    any_tx_uuid hmemT
  have hanyA : db.accounts.any (fun r => r.uuid == a.uuid) = true :=
    any_account_uuid hmemA
  have hT : insert_or_update_transaction db t
      = { db with transactions := db.transactions.map (updateTransactionRecord t) } := by
    unfold insert_or_update_transaction
    rw [if_pos hanyT]
  have hA : insert_or_update_account db bn a
      = { db with
          banks := upsertBank db.banks bn
          accounts := db.accounts.map (updateAccountRecord a) } := by
    unfold insert_or_update_account
    rw [if_pos hanyA]
  constructor
  · refine ⟨?_, ?_, ?_⟩
    · rw [hT]; exact List.length_map _ _
    · rw [hT]; exact exists_updated_tx db.transactions t hmemT
    · rw [hT]
      show ((db.transactions.map (updateTransactionRecord t)).map
        TransactionRecord.uuid).Nodup
      rw [txUuids_map_update]
      exact hnodupT
  · refine ⟨?_, ?_, ?_⟩
    · rw [hA]; exact List.length_map _ _
    · rw [hA]; exact exists_updated_account db.accounts a hmemA
    · rw [hA]
      show ((db.accounts.map (updateAccountRecord a)).map AccountRecord.uuid).Nodup
      rw [accountUuids_map_update]
      exact hnodupA

/-- A store with one bank, one account (UUID 9) and one transaction (UUID 8). -/
def dbW4 : Store := ⟨["b"], [⟨9, "b", "old name", "GBP", 0⟩], [⟨8, 9, 0, "old cp", 5, "old ref"⟩]⟩

/-- An upsert for the existing transaction UUID 8 with changed fields. -/
def txW4 : TransactionSchema := ⟨8, 9, 1, "new cp", 7, "new ref"⟩

/-- An upsert for the existing account UUID 9 with changed fields. -/
def accW4 : AccountSchema := ⟨9, "b", "new name", "EUR", 2⟩

/-- Witness for claim C4 at a concrete store: both hypotheses hold and the
upserts update in place. -/
theorem C4_upsert_keyed_on_uuid_witness :
    (txW4.uuid ∈ txUuids dbW4 ∧ accW4.uuid ∈ accountUuids dbW4
      ∧ (txUuids dbW4).Nodup ∧ (accountUuids dbW4).Nodup)
    ∧ (((insert_or_update_transaction dbW4 txW4).transactions.length
          = dbW4.transactions.length
        ∧ (∃ r ∈ (insert_or_update_transaction dbW4 txW4).transactions,
            r.uuid = txW4.uuid ∧ r.time = txW4.time
            ∧ r.counterparty_name = txW4.counterparty_name
            ∧ r.amount = roundF32 txW4.amount ∧ r.reference = txW4.reference)
        ∧ (txUuids (insert_or_update_transaction dbW4 txW4)).Nodup)
      ∧ ((insert_or_update_account dbW4 "b" accW4).accounts.length
          = dbW4.accounts.length
        ∧ (∃ r ∈ (insert_or_update_account dbW4 "b" accW4).accounts,
            r.uuid = accW4.uuid ∧ r.name = accW4.account_name
            ∧ r.currency = accW4.currency ∧ r.created_at = accW4.created_at)
        ∧ (accountUuids (insert_or_update_account dbW4 "b" accW4)).Nodup)) :=
  ⟨⟨by decide, by decide, by decide, by decide⟩,
   C4_upsert_keyed_on_uuid dbW4 txW4 "b" accW4 (by decide) (by decide) (by decide)
     (by decide)⟩

/-! ### Round-trip through the store (claim C7) -/

/-- `find?` over the conflict-updated table locates a row carrying the
upserted field values whenever the conflict test was positive. -/
lemma find?_updated_tx (l : List TransactionRecord) (t : TransactionSchema)
    (hany : l.any (fun r => r.uuid == t.uuid) = true) :
    ∃ r, (l.map (updateTransactionRecord t)).find? (fun r => r.uuid == t.uuid) = some r
      ∧ r.time = t.time ∧ r.counterparty_name = t.counterparty_name
      ∧ r.reference = t.reference ∧ r.amount = roundF32 t.amount := by
  induction l with
  | nil => simp at hany
  | cons r0 rest ih =>
    by_cases h0 : (r0.uuid == t.uuid) = true
    · refine ⟨updateTransactionRecord t r0, ?_, ?_⟩
      · rw [List.map_cons]
        apply List.find?_cons_of_pos
        rw [updateTransactionRecord_uuid]
        exact h0
      · simp [updateTransactionRecord, h0]
    · have hrest : rest.any (fun r => r.uuid == t.uuid) = true := by
        simp only [List.any_cons, h0] at hany
        simpa using hany
      obtain ⟨r, hfind, hfields⟩ := ih hrest
      refine ⟨r, ?_, hfields⟩
      rw [List.map_cons]
      rw [List.find?_cons_of_neg, hfind]
      rw [updateTransactionRecord_uuid]
      exact h0

/-- The `Transaction` row written by the no-conflict insert branch. -/
def insertedTx (t : TransactionSchema) : TransactionRecord :=
  ⟨t.uuid, t.account_uuid, t.time, t.counterparty_name, roundF32 t.amount, t.reference⟩

/-- When no row matches, the freshly inserted row is the one `find?` hits. -/
lemma find?_appended_tx (l : List TransactionRecord) (t : TransactionSchema)
    (hany : l.any (fun r => r.uuid == t.uuid) = false) :
    (l ++ [insertedTx t]).find? (fun r => r.uuid == t.uuid) = some (insertedTx t) := by
  induction l with
  | nil => simp [insertedTx]
  | cons r0 rest ih =>
    simp only [List.any_cons, Bool.or_eq_false_iff] at hany
    rw [List.cons_append, List.find?_cons_of_neg _ (by simp [hany.1]), ih hany.2]

/-- Claim C7, amended: upserting a fetched transaction and re-selecting it
by UUID yields a row with identical timestamp, counterparty name and
reference, and with the amount equal to the `<float32>`-rounded original —
not, in general, the original amount itself. -/
theorem C7_roundtrip_preserves_all_but_float32_amount (db : Store)
    (t : TransactionSchema) :
    ∃ r, select_transaction (insert_or_update_transaction db t) t.uuid = some r
      ∧ r.time = t.time ∧ r.counterparty_name = t.counterparty_name
      ∧ r.reference = t.reference ∧ r.amount = roundF32 t.amount := by
  unfold select_transaction insert_or_update_transaction
  by_cases hany : db.transactions.any (fun r => r.uuid == t.uuid) = true
  · rw [if_pos hany]
    exact find?_updated_tx db.transactions t hany
  · rw [if_neg hany]
    have hfalse : db.transactions.any (fun r => r.uuid == t.uuid) = false :=
      Bool.eq_false_iff.2 hany
    exact ⟨insertedTx t, find?_appended_tx db.transactions t hfalse, rfl, rfl, rfl, rfl⟩

/-- The amount £170000.01 as an exact rational, given in lowest terms so its
numerator and denominator are definitionally readable. -/
def q0 : Rat := ⟨17000001, 100, by norm_num, by norm_num⟩

lemma q0_num : q0.num = 17000001 := rfl

lemma q0_den : q0.den = 100 := rfl

lemma q0_eq : q0 = 17000001 / 100 := by
  rw [← Rat.num_div_den q0, q0_num, q0_den]
  norm_num

lemma q0_pos : 0 < q0 := by
  rw [q0_eq]; norm_num

lemma log2UpAux_q0 : log2UpAux floatFuel 17000001 100 = 17 := by
  simp [floatFuel, log2UpAux]

lemma rhe_q0 : rhe 1088000064 100 = 10880001 := by
  simp [rhe]

/-- binary32 rounds £170000.01 to `10880001 / 64` = £170000.015625: at this
magnitude the spacing of binary32 values is `1/64`. -/
lemma roundF32_q0 : roundF32 q0 = 10880001 / 64 := by
  unfold roundF32
  rw [if_neg (ne_of_gt q0_pos)]
  simp only [q0_num, q0_den]
  norm_num [log2UpAux_q0, not_lt.2 q0_pos.le]
  rw [show Int.toNat 6 = 6 from rfl,
    show (17000001 * 2 ^ 6 : Nat) = 1088000064 by norm_num, rhe_q0]
  norm_num

/-- A transaction of £170000.01 as fetched from a provider. -/
def tx170 : TransactionSchema := ⟨170, 1, 0, "big shop", q0, "r170"⟩

/-- Claim C7 counterexample: upserting a transaction of 17000001/100
(£170000.01, a currency-minor-unit-exact amount) stores 10880001/64
(£170000.015625) — the `<float32>` cast moves the amount by 9/1600, which is
more than half a minor unit (1/200), so the round-tripped amount is not
identical to currency-minor-unit precision (it reads back as £170000.02). -/
theorem C7_float32_precision_loss :
    (insert_or_update_transaction store0 tx170).transactions.map TransactionRecord.amount
      = [(10880001 : Rat) / 64]
    ∧ tx170.amount = (17000001 : Rat) / 100
    ∧ (10880001 : Rat) / 64 - 17000001 / 100 = 9 / 1600
    ∧ (1 : Rat) / 200 < 9 / 1600 := by
  refine ⟨?_, q0_eq, by norm_num, by norm_num⟩
  show (insert_or_update_transaction store0 tx170).transactions.map _ = _
  simp [insert_or_update_transaction, store0, tx170, roundF32_q0]
